import Mathlib

/-!
Verification development for Project Samarth (natural-language front end over
government open-data extracts).

The Python sources are shallowly embedded as Lean definitions:

* Python strings are `String`; all character-level computation (`str.lower`,
  substring tests, regex scans) is carried out on `List Char` (`String.data`)
  so that every definition evaluates by kernel reduction.  ASCII semantics are
  used for `lower`, `\s`, `\w` and `\d`; all vocabulary and query strings in
  the code base are ASCII.
* pandas DataFrames become `List Row` with every column present; floats become
  `ℚ` (the analytics routines use only field arithmetic on the paths claimed).
* Python dicts keyed by strings become association lists with first-match
  lookup.
* Fallible code returns `Option`/`Except`; file-system state (the disk cache)
  and wall-clock time are passed explicitly.
-/

/-! ## Generic string helpers (models of Python `str` primitives) -/

/-- ASCII lower-casing of one character, the model of `str.lower` per
character. -/
def lowerChar (c : Char) : Char :=
  if 65 ≤ c.toNat ∧ c.toNat ≤ 90 then Char.ofNat (c.toNat + 32) else c

/-- Model of `str.lower()` (ASCII). -/
def strToLower (s : String) : String := ⟨s.data.map lowerChar⟩

/-- Predicate `startsWithL n h` holds when `n` is a leading segment of `h`. -/
def startsWithL : List Char → List Char → Bool
  | [], _ => true
  | _ :: _, [] => false
  | n :: ns, h :: hs => n == h && startsWithL ns hs

/-- Predicate `isSubstr n h` models the Python substring test `n in h`. -/
def isSubstr (needle : List Char) : List Char → Bool
  | [] => startsWithL needle []
  | h :: hs => startsWithL needle (h :: hs) || isSubstr needle hs

/-- Python `needle in hay` on strings. -/
def strIn (needle hay : String) : Bool := isSubstr needle.data hay.data

/-- Model of `\s` (Python regex whitespace, ASCII range). -/
def pyIsSpace (c : Char) : Bool :=
  c == ' ' || c == '\t' || c == '\n' || c == '\r' || c.toNat == 11 || c.toNat == 12

/-- Model of `\w` (Python regex word character, ASCII range). -/
def isWordChar (c : Char) : Bool := c.isAlpha || c.isDigit || c == '_'

/-- Numeric value of a digit run, the model of `int()` on a `\d+` capture. -/
def digitsToNat (ds : List Char) : Nat := ds.foldl (fun a c => 10 * a + (c.toNat - 48)) 0

/-- Model of Python `range(a, b)` as a list of integers. -/
def pyRange (a b : Int) : List Int :=
  (List.range (b - a).toNat).map (fun (i : Nat) => a + (i : Int))

/-! ## Config (src/config.py): static lookup tables -/

namespace Config

/-- Table `Config.INDIAN_STATES` from src/config.py. -/
def INDIAN_STATES : List String :=
  ["Andhra Pradesh", "Arunachal Pradesh", "Assam", "Bihar", "Chhattisgarh",
   "Goa", "Gujarat", "Haryana", "Himachal Pradesh", "Jharkhand", "Karnataka",
   "Kerala", "Madhya Pradesh", "Maharashtra", "Manipur", "Meghalaya", "Mizoram",
   "Nagaland", "Odisha", "Punjab", "Rajasthan", "Sikkim", "Tamil Nadu",
   "Telangana", "Tripura", "Uttar Pradesh", "Uttarakhand", "West Bengal",
   "Delhi", "Jammu and Kashmir", "Ladakh", "Puducherry", "Chandigarh",
   "Dadra and Nagar Haveli", "Daman and Diu", "Lakshadweep",
   "Andaman and Nicobar Islands"]

/-- Table `Config.STATE_ABBREVIATIONS` from src/config.py (insertion order of the
Python dict). -/
def STATE_ABBREVIATIONS : List (String × String) :=
  [("AP", "Andhra Pradesh"), ("AR", "Arunachal Pradesh"), ("AS", "Assam"),
   ("BR", "Bihar"), ("CG", "Chhattisgarh"), ("GA", "Goa"), ("GJ", "Gujarat"),
   ("HR", "Haryana"), ("HP", "Himachal Pradesh"), ("JH", "Jharkhand"),
   ("KA", "Karnataka"), ("KL", "Kerala"), ("MP", "Madhya Pradesh"),
   ("MH", "Maharashtra"), ("MN", "Manipur"), ("ML", "Meghalaya"), ("MZ", "Mizoram"),
   ("NL", "Nagaland"), ("OD", "Odisha"), ("PB", "Punjab"), ("RJ", "Rajasthan"),
   ("SK", "Sikkim"), ("TN", "Tamil Nadu"), ("TG", "Telangana"), ("TR", "Tripura"),
   ("UP", "Uttar Pradesh"), ("UK", "Uttarakhand"), ("WB", "West Bengal"),
   ("DL", "Delhi"), ("JK", "Jammu and Kashmir"), ("LA", "Ladakh"), ("PY", "Puducherry")]

/-- Table `Config.MAJOR_CROPS` from src/config.py. -/
def MAJOR_CROPS : List String :=
  ["Rice", "Wheat", "Maize", "Bajra", "Jowar", "Barley", "Ragi",
   "Cotton", "Sugarcane", "Jute", "Tobacco", "Tea", "Coffee",
   "Coconut", "Groundnut", "Soybean", "Sunflower", "Rapeseed", "Mustard",
   "Potato", "Onion", "Tomato", "Pulses", "Chickpea", "Lentil",
   "Arhar", "Moong", "Urad", "Masoor", "Fruits", "Vegetables"]

/-- Table `Config.CROP_CATEGORIES` from src/config.py. -/
def CROP_CATEGORIES : List (String × List String) :=
  [("cereals", ["Rice", "Wheat", "Maize", "Bajra", "Jowar", "Barley", "Ragi"]),
   ("pulses", ["Chickpea", "Arhar", "Moong", "Urad", "Lentil", "Masoor"]),
   ("oilseeds", ["Groundnut", "Soybean", "Sunflower", "Rapeseed", "Mustard"]),
   ("cash_crops", ["Cotton", "Sugarcane", "Jute", "Tobacco", "Tea", "Coffee"]),
   ("horticulture", ["Fruits", "Vegetables", "Potato", "Onion", "Tomato", "Coconut"])]

/-- Setting `Config.CACHE_TTL` (seconds) from src/config.py. -/
def CACHE_TTL : Int := 3600

/-- Setting `Config.ENABLE_CACHE` from src/config.py. -/
def ENABLE_CACHE : Bool := true

end Config

/-! ## QueryEngine entity extraction (src/query_engine.py) -/

namespace QueryEngine

/-- The word-delimited abbreviation test used by `_extract_states`:
`f" {abbr.lower()} " in f" {query.lower()} " or f" {abbr.lower()}," in f" {query.lower()},"`. -/
def abbrevMatches (abbr query : String) : Bool :=
  strIn (" " ++ strToLower abbr ++ " ") (" " ++ strToLower query ++ " ") ||
  strIn (" " ++ strToLower abbr ++ ",") (" " ++ strToLower query ++ ",")

/-- Model of `QueryEngine._extract_states`: full state names matched by case-insensitive
substring containment, then abbreviations appended (skipping duplicates). -/
def extract_states (query : String) : List String :=
  let base := Config.INDIAN_STATES.filter (fun s => strIn (strToLower s) (strToLower query))
  Config.STATE_ABBREVIATIONS.foldl
    (fun acc ab =>
      if abbrevMatches ab.1 query then
        (if acc.contains ab.2 then acc else acc ++ [ab.2])
      else acc)
    base

/-- Model of `QueryEngine._extract_crops`: crop names matched by case-insensitive
substring containment, crop categories expanded, duplicates removed
(`list(set(...))` in the source returns the elements in unspecified order;
the embedding picks one duplicate-free enumeration). -/
def extract_crops (query : String) : List String :=
  let ql := strToLower query
  let base := Config.MAJOR_CROPS.filter (fun c => strIn (strToLower c) ql)
  let withCats := Config.CROP_CATEGORIES.foldl
    (fun acc cat => if strIn cat.1 ql then acc ++ cat.2 else acc) base
  withCats.dedup

/-- One attempted match of the regex `top\s+(\d+)` anchored at the head of the
character list: literal `top`, one or more whitespace, then a maximal digit
run whose value is returned. -/
def matchTopAt : List Char → Option Nat
  | 't' :: 'o' :: 'p' :: rest =>
    let ws := rest.takeWhile pyIsSpace
    let rest2 := rest.dropWhile pyIsSpace
    let ds := rest2.takeWhile Char.isDigit
    if ws.isEmpty || ds.isEmpty then none else some (digitsToNat ds)
  | _ => none

/-- Model of `re.search(r'top\s+(\d+)', ...)`: the leftmost position where
`matchTopAt` succeeds. -/
def findTopMatch : List Char → Option Nat
  | [] => none
  | c :: rest =>
    match matchTopAt (c :: rest) with
    | some n => some n
    | none => findTopMatch rest

/-- One attempted match of the regex `(\d+)\s+(?:most|best|highest)` anchored
at the head of the character list. -/
def matchNumWordAt (cs : List Char) : Option Nat :=
  let ds := cs.takeWhile Char.isDigit
  if ds.isEmpty then none
  else
    let rest := cs.dropWhile Char.isDigit
    let ws := rest.takeWhile pyIsSpace
    let rest2 := rest.dropWhile pyIsSpace
    if ws.isEmpty then none
    else if startsWithL "most".data rest2 || startsWithL "best".data rest2 ||
            startsWithL "highest".data rest2 then
      some (digitsToNat ds)
    else none

/-- Model of `re.search(r'(\d+)\s+(?:most|best|highest)', ...)`: leftmost match. -/
def findNumWordMatch : List Char → Option Nat
  | [] => none
  | c :: rest =>
    match matchNumWordAt (c :: rest) with
    | some n => some n
    | none => findNumWordMatch rest

/-- Model of `QueryEngine._extract_top_n`: the `top\s+(\d+)` pattern, then the
`(\d+)\s+(?:most|best|highest)` pattern, then the default 5. -/
def extract_top_n (query : String) : Nat :=
  match findTopMatch (strToLower query).data with
  | some n => n
  | none =>
    match findNumWordMatch (strToLower query).data with
    | some n => n
    | none => 5

/-- Model of `re.findall(r'\b(19|20)\d{2}\b', query)` followed by `int(...)` on each
captured group.  Note that the capture group is only the two-digit century
marker, so each match contributes `19` or `20` (exactly as the source does).
`prev` is the character immediately before the scan position (`none` at the
start of the string), used for the left word boundary. -/
def yearScan : Option Char → List Char → List Int
  | prev, c1 :: c2 :: c3 :: c4 :: rest =>
    if (match prev with | none => true | some p => !(isWordChar p)) &&
       (((c1 == '1') && (c2 == '9')) || ((c1 == '2') && (c2 == '0'))) &&
       c3.isDigit && c4.isDigit &&
       (match rest with | [] => true | r :: _ => !(isWordChar r)) then
      (if c1 == '1' then (19 : Int) else 20) :: yearScan (some c4) rest
    else
      yearScan (some c1) (c2 :: c3 :: c4 :: rest)
  | _, _ => []

/-- One attempted match of `last\s+(\d+)\s+years?` anchored at the head. -/
def matchLastAt : List Char → Option Nat
  | 'l' :: 'a' :: 's' :: 't' :: rest =>
    let ws1 := rest.takeWhile pyIsSpace
    let r1 := rest.dropWhile pyIsSpace
    let ds := r1.takeWhile Char.isDigit
    let r2 := r1.dropWhile Char.isDigit
    let ws2 := r2.takeWhile pyIsSpace
    let r3 := r2.dropWhile pyIsSpace
    if ws1.isEmpty || ds.isEmpty || ws2.isEmpty then none
    else if startsWithL "year".data r3 then some (digitsToNat ds) else none
  | _ => none

/-- Model of `re.search(r'last\s+(\d+)\s+years?', ...)`: leftmost match. -/
def findLastNMatch : List Char → Option Nat
  | [] => none
  | c :: rest =>
    match matchLastAt (c :: rest) with
    | some n => some n
    | none => findLastNMatch rest

/-- Model of `re.search(r'over (?:the )?(?:last |past )?decade', ...)` as a disjunction
of the six concrete alternatives of the pattern. -/
def hasDecadeRef (ql : String) : Bool :=
  strIn "over decade" ql || strIn "over the decade" ql || strIn "over last decade" ql ||
  strIn "over past decade" ql || strIn "over the last decade" ql ||
  strIn "over the past decade" ql

/-- Model of `QueryEngine._extract_years` with `datetime.now().year` passed explicitly:
explicit-year captures, overridden by a `last N years` range, overridden by a
decade range, with `range(current_year - 5, current_year)` as the default when
the accumulated list is empty; finally `sorted(set(years))`. -/
def extract_years (currentYear : Int) (query : String) : List Int :=
  let explicitYears := yearScan none query.data
  let afterLast :=
    match findLastNMatch (strToLower query).data with
    | some n => pyRange (currentYear - (n : Int)) currentYear
    | none => explicitYears
  let afterDecade :=
    if hasDecadeRef (strToLower query) then pyRange (currentYear - 10) currentYear
    else afterLast
  let finalYears :=
    if afterDecade.isEmpty then pyRange (currentYear - 5) currentYear else afterDecade
  (finalYears.dedup).insertionSort (· ≤ ·)

end QueryEngine

/-! ## AnalyticsEngine (src/analytics.py) -/

/-- One flat tabular record, the row shape shared by the data sets
(`{state, district, crop, year, annual_rainfall_mm, production_tonnes}`).
All columns are modelled as present; float-valued columns are `ℚ`. -/
structure Row where
  state : String
  district : String
  crop : String
  year : Int
  annual_rainfall_mm : ℚ
  production_tonnes : ℚ
deriving DecidableEq

/-- The `data_results` dict passed to the analytics routines: keys such as
`"rainfall"`, `"production"`, `"district_<state>"` mapped to the fetched
DataFrame (the per-entry `source` citation carries no analytic content and is
omitted). -/
abbrev DataResults := List (String × List Row)

namespace AnalyticsEngine

/-- Model of `AnalyticsEngine._calculate_confidence`. -/
def calculate_confidence (data_points : Nat) : ℚ :=
  if data_points = 0 then 0
  else if data_points < 10 then 0.5
  else if data_points < 50 then 0.7
  else if data_points < 100 then 0.85
  else 0.95

/-- Mean of a list of rationals (`Series.mean`; only applied to non-empty
series on the claimed paths). -/
def listMean (vs : List ℚ) : ℚ := vs.sum / (vs.length : ℚ)

/-- Descending order on `(name, value)` pairs, the comparator behind
`sort_values(ascending=False)`. -/
def byValueDesc (a b : String × ℚ) : Prop := b.2 ≤ a.2

instance : DecidableRel byValueDesc := fun a b => inferInstanceAs (Decidable (b.2 ≤ a.2))

/-- Model of `groupby('state')['annual_rainfall_mm'].mean()` as an association list
(one entry per distinct state; pandas enumerates groups in sorted key order,
which no claim depends on). -/
def state_rainfall_means (rows : List Row) : List (String × ℚ) :=
  ((rows.map Row.state).dedup).map
    (fun s => (s, listMean ((rows.filter (fun r => r.state == s)).map Row.annual_rainfall_mm)))

/-- Model of `groupby('crop')['production_tonnes'].sum()` as an association list. -/
def crop_production_totals (rows : List Row) : List (String × ℚ) :=
  ((rows.map Row.crop).dedup).map
    (fun c => (c, ((rows.filter (fun r => r.crop == c)).map Row.production_tonnes).sum))

/-- Result of `AnalyticsEngine.compare_analysis` (the `summary` dict is modelled by the
two optional comparison tables it may contain). -/
structure CompareResult where
  rainfall_comparison : Option (List (String × ℚ))
  crop_comparison : Option (List (String × List (String × ℚ)))
  data : DataResults
  confidence : ℚ
  data_points : Nat

/-- Model of `AnalyticsEngine.compare_analysis`: average rainfall per state and top-5
crops per state, with `data_points` accumulating the lengths of the
contributing DataFrames. -/
def compare_analysis (dr : DataResults) : CompareResult :=
  let rainPart : Option (List (String × ℚ)) × Nat :=
    match dr.lookup "rainfall" with
    | some rows => if rows.isEmpty then (none, 0) else (some (state_rainfall_means rows), rows.length)
    | none => (none, 0)
  let prodPart : Option (List (String × List (String × ℚ))) × Nat :=
    match dr.lookup "production" with
    | some rows =>
      if rows.isEmpty then (none, 0)
      else
        (some (((rows.map Row.state).dedup).map (fun s =>
          let stateData := rows.filter (fun r => r.state == s)
          (s, ((crop_production_totals stateData).insertionSort byValueDesc).take 5))),
         rows.length)
    | none => (none, 0)
  { rainfall_comparison := rainPart.1
    crop_comparison := prodPart.1
    data := dr
    confidence := calculate_confidence (rainPart.2 + prodPart.2)
    data_points := rainPart.2 + prodPart.2 }

/-- Result of `AnalyticsEngine.top_n_analysis` (`top_results` entries are
`(name, value, unit)`). -/
structure TopNResult where
  top_results : List (String × ℚ × String)
  data : DataResults
  confidence : ℚ
  data_points : Nat

/-- Model of `AnalyticsEngine.top_n_analysis`: crop totals (descending) when
production data is present, else mean state rainfall (descending); note the
source's `elif` consults rainfall only when the `production` key is absent. -/
def top_n_analysis (top_n : Nat) (dr : DataResults) : TopNResult :=
  match dr.lookup "production" with
  | some rows =>
    if rows.isEmpty then
      { top_results := [], data := dr, confidence := calculate_confidence 0, data_points := 0 }
    else
      { top_results :=
          (((crop_production_totals rows).insertionSort byValueDesc).take top_n).map
            (fun p => (p.1, p.2, "tonnes"))
        data := dr
        confidence := calculate_confidence rows.length
        data_points := rows.length }
  | none =>
    match dr.lookup "rainfall" with
    | some rows =>
      if rows.isEmpty then
        { top_results := [], data := dr, confidence := calculate_confidence 0, data_points := 0 }
      else
        { top_results :=
            (((state_rainfall_means rows).insertionSort byValueDesc).take top_n).map
              (fun p => (p.1, p.2, "mm"))
          data := dr
          confidence := calculate_confidence rows.length
          data_points := rows.length }
    | none =>
      { top_results := [], data := dr, confidence := calculate_confidence 0, data_points := 0 }

/-- The `trend_summary` dict built by `AnalyticsEngine.trend_analysis`. -/
structure TrendSummary where
  direction : String
  growth_rate : ℚ
  start_year : Int
  end_year : Int
  start_value : ℚ
  end_value : ℚ
  yearly_data : List (Int × ℚ)
deriving DecidableEq

/-- Result of `AnalyticsEngine.trend_analysis`. -/
structure TrendResult where
  trend_summary : Option TrendSummary
  data : DataResults
  confidence : ℚ
  data_points : Nat

/-- Model of `groupby('year')[col].sum().sort_index()`: distinct years in ascending
order, each with the sum of `production_tonnes` over its rows. -/
def yearly_production_total (rows : List Row) : List (Int × ℚ) :=
  (((rows.map Row.year).dedup).insertionSort (· ≤ ·)).map
    (fun y => (y, ((rows.filter (fun r => r.year == y)).map Row.production_tonnes).sum))

/-- Model of `groupby('year')['annual_rainfall_mm'].mean().sort_index()`. -/
def yearly_rainfall_mean (rows : List Row) : List (Int × ℚ) :=
  (((rows.map Row.year).dedup).insertionSort (· ≤ ·)).map
    (fun y => (y, listMean ((rows.filter (fun r => r.year == y)).map Row.annual_rainfall_mm)))

/-- Model of `pct_change() * 100` over the value series: one growth rate per
consecutive pair (the leading `NaN` that pandas would produce is dropped, as
`Series.mean` ignores it; a zero baseline, which pandas would map to an
infinite rate, follows the `ℚ` convention `x / 0 = 0`). -/
def growth_rates (vs : List ℚ) : List ℚ :=
  List.zipWith (fun prev cur => (cur - prev) / prev * 100) vs vs.tail

/-- Mean year-over-year growth (`growth_rates(...).mean()`). -/
def avg_growth_of (vs : List ℚ) : ℚ := listMean (growth_rates vs)

/-- Build the `trend_summary` dict from a sorted yearly series with its
direction classifier applied to the mean growth. -/
def mkTrendSummary (yearly : List (Int × ℚ)) (direction : String) (avg : ℚ) : TrendSummary :=
  { direction := direction
    growth_rate := avg
    start_year := ((yearly.head?).map Prod.fst).getD 0
    end_year := ((yearly.getLast?).map Prod.fst).getD 0
    start_value := ((yearly.head?).map Prod.snd).getD 0
    end_value := ((yearly.getLast?).map Prod.snd).getD 0
    yearly_data := yearly }

/-- Model of `AnalyticsEngine.trend_analysis`: production trend (thresholds ±2) when
the `production` key is present, else rainfall trend (thresholds ±1); in both
branches the summary is produced only when more than one distinct year
exists. -/
def trend_analysis (dr : DataResults) : TrendResult :=
  match dr.lookup "production" with
  | some rows =>
    if rows.isEmpty then
      { trend_summary := none, data := dr, confidence := calculate_confidence 0, data_points := 0 }
    else
      let yearly := yearly_production_total rows
      if 1 < yearly.length then
        let avg := avg_growth_of (yearly.map Prod.snd)
        let dir := if 2 < avg then "increasing" else if avg < -2 then "decreasing" else "stable"
        { trend_summary := some (mkTrendSummary yearly dir avg)
          data := dr
          confidence := calculate_confidence rows.length
          data_points := rows.length }
      else
        { trend_summary := none, data := dr, confidence := calculate_confidence 0, data_points := 0 }
  | none =>
    match dr.lookup "rainfall" with
    | some rows =>
      if rows.isEmpty then
        { trend_summary := none, data := dr, confidence := calculate_confidence 0, data_points := 0 }
      else
        let yearly := yearly_rainfall_mean rows
        if 1 < yearly.length then
          let avg := avg_growth_of (yearly.map Prod.snd)
          let dir := if 1 < avg then "increasing" else if avg < -1 then "decreasing" else "stable"
          { trend_summary := some (mkTrendSummary yearly dir avg)
            data := dr
            confidence := calculate_confidence rows.length
            data_points := rows.length }
        else
          { trend_summary := none, data := dr, confidence := calculate_confidence 0, data_points := 0 }
    | none =>
      { trend_summary := none, data := dr, confidence := calculate_confidence 0, data_points := 0 }

/-- Model of `pd.merge(rainfall_df, production_df, on=['state', 'year'], how='inner')`:
every pair of a rainfall row and a production row agreeing on state and
year. -/
def innerJoin (rrows prows : List Row) : List (Row × Row) :=
  rrows.flatMap (fun r =>
    (prows.filter (fun p => p.state == r.state && p.year == r.year)).map (fun p => (r, p)))

/-- Result of `AnalyticsEngine.correlation_analysis`.  The Pearson coefficient
and p-value are real-valued (square roots and the t-distribution) and are not
the subject of any claim; the computed `correlation_results` dict is modelled
by its `sample_size`, with `none` standing for the empty dict. -/
structure CorrelationResult where
  correlation_results : Option Nat
  data : DataResults
  confidence : ℚ
  data_points : Nat

/-- The empty correlation answer (`correlation_results = {}`,
`data_points = 0`). -/
def emptyCorrelation (dr : DataResults) : CorrelationResult :=
  { correlation_results := none, data := dr, confidence := calculate_confidence 0, data_points := 0 }

/-- Model of `AnalyticsEngine.correlation_analysis`: inner-join rainfall and
production on `(state, year)` and produce a result only when the joined
table has strictly more than 5 rows. -/
def correlation_analysis (dr : DataResults) : CorrelationResult :=
  match dr.lookup "rainfall", dr.lookup "production" with
  | some rrows, some prows =>
    if rrows.isEmpty || prows.isEmpty then emptyCorrelation dr
    else
      let merged := innerJoin rrows prows
      if 5 < merged.length then
        { correlation_results := some merged.length
          data := dr
          confidence := calculate_confidence merged.length
          data_points := merged.length }
      else emptyCorrelation dr
  | _, _ => emptyCorrelation dr

/-- Result of `AnalyticsEngine.general_analysis` (`summary` is modelled by the
per-key record counts; the float statistics blocks involve `std`, a real
square root, and are not the subject of any claim). -/
structure GeneralResult where
  summary : List (String × Nat)
  data : DataResults
  confidence : ℚ
  data_points : Nat

/-- Model of `AnalyticsEngine.general_analysis`: every non-empty DataFrame contributes
its record count to `summary` and its length to `data_points`. -/
def general_analysis (dr : DataResults) : GeneralResult :=
  let entries := dr.filter (fun e => !(e.2.isEmpty))
  { summary := entries.map (fun e => (e.1, e.2.length))
    data := dr
    confidence := calculate_confidence ((entries.map (fun e => e.2.length)).sum)
    data_points := (entries.map (fun e => e.2.length)).sum }

/-- First row attaining the maximal value of `f` (`idxmax`). -/
def argmaxRow (f : Row → ℚ) (rows : List Row) : Option Row :=
  rows.foldl
    (fun acc r => match acc with
      | none => some r
      | some b => if f b < f r then some r else acc)
    none

/-- First row attaining the minimal value of `f` (`idxmin`). -/
def argminRow (f : Row → ℚ) (rows : List Row) : Option Row :=
  rows.foldl
    (fun acc r => match acc with
      | none => some r
      | some b => if f r < f b then some r else acc)
    none

/-- Fallback row for the (unreachable) `idxmax`/`idxmin` of an empty frame. -/
def defaultRow : Row :=
  { state := "", district := "", crop := "", year := 0,
    annual_rainfall_mm := 0, production_tonnes := 0 }

/-- One entry of the `district_summary` dict of
`AnalyticsEngine.district_analysis`. -/
structure DistrictInfo where
  highest_name : String
  highest_production : ℚ
  highest_crop : String
  lowest_name : String
  lowest_production : ℚ
  lowest_crop : String
  average_production : ℚ
  total_districts : Nat

/-- Result of `AnalyticsEngine.district_analysis`. -/
structure DistrictResult where
  district_summary : List (String × DistrictInfo)
  data : DataResults
  confidence : ℚ
  data_points : Nat

/-- Model of `AnalyticsEngine.district_analysis`: for every entry whose key contains
`"district"` and whose DataFrame is non-empty, report the highest and lowest
producing districts (the `district` and `production_tonnes` columns are
always present in the row model). -/
def district_analysis (dr : DataResults) : DistrictResult :=
  let entries := dr.filter (fun e => isSubstr "district".data e.1.data && !(e.2.isEmpty))
  { district_summary := entries.map (fun e =>
      let rows := e.2
      let highest := (argmaxRow Row.production_tonnes rows).getD defaultRow
      let lowest := (argminRow Row.production_tonnes rows).getD defaultRow
      (e.1,
        { highest_name := highest.district
          highest_production := highest.production_tonnes
          highest_crop := highest.crop
          lowest_name := lowest.district
          lowest_production := lowest.production_tonnes
          lowest_crop := lowest.crop
          average_production := listMean (rows.map Row.production_tonnes)
          total_districts := ((rows.map Row.district).dedup).length }))
    data := dr
    confidence := calculate_confidence ((entries.map (fun e => e.2.length)).sum)
    data_points := (entries.map (fun e => e.2.length)).sum }

end AnalyticsEngine

/-! ## DataFetcher (src/data_fetcher.py)

The disk cache is explicit state: a map from cache key to file entry
(`mtime`, plus `content`, where `none` models an unreadable/corrupt file —
`_read_cache` catches its own exceptions and returns `None`).  Wall-clock
`time.time()` is the explicit `now`.  The `md5` digest of
`f"{endpoint}_{json.dumps(params, sort_keys=True)}"` is modelled by the
`(endpoint, params)` pair itself (an injective key abstraction), and the
cache file path is identified with the key.  The single
`session.get(...).json()` attempt is the `api` argument: `Except.error`
models a raised `requests.exceptions.RequestException` (which, in the
`requests` versions this code targets, also covers HTTP error statuses via
`raise_for_status` and malformed JSON bodies).  `_write_cache` swallows its
own I/O errors; the model lets the write succeed.  The payload type `ρ` is
abstract: the cache/fallback logic never inspects it. -/

namespace DataFetcher

/-- The configuration bits consulted by `fetch_data`:
`Config.ENABLE_CACHE`, `Config.CACHE_TTL` and `Config.is_demo_mode()`. -/
structure FetchConfig where
  enableCache : Bool
  cacheTTL : Int
  demoMode : Bool

/-- Cache key: the `(endpoint_name, params)` pair (see the namespace note on
the md5 abstraction). -/
abbrev CacheKey := String × List (String × String)

/-- Model of `DataFetcher._get_cache_key` under the injective-digest abstraction. -/
def get_cache_key (endpoint : String) (params : List (String × String)) : CacheKey :=
  (endpoint, params)

/-- The result dict assembled by `fetch_data` (metadata strings `url`,
`timestamp`, `endpoint`, `parameters` and the derived `records_count` carry
no claim content and are omitted; `demo_mode`/`cache_expired` default to
false where the source leaves the key absent). -/
structure FetchResult (ρ : Type) where
  data : ρ
  from_cache : Bool
  cache_expired : Bool
  demo_mode : Bool
deriving DecidableEq

/-- One cache file: its `st_mtime` and its readable content (`none` when
`json.load` would fail). -/
structure CacheEntry (ρ : Type) where
  mtime : Int
  content : Option (FetchResult ρ)
deriving DecidableEq

/-- The cache directory. -/
abbrev CacheState (ρ : Type) := List (CacheKey × CacheEntry ρ)

/-- File-system lookup of a cache path (first entry wins). -/
def cacheLookup {ρ : Type} : CacheState ρ → CacheKey → Option (CacheEntry ρ)
  | [], _ => none
  | (k, e) :: rest, key => if key = k then some e else cacheLookup rest key

/-- Model of `DataFetcher._is_cache_valid`: the file exists, caching is enabled, and
`time.time() - st_mtime < CACHE_TTL`. -/
def is_cache_valid {ρ : Type} (cfg : FetchConfig) (now : Int) (cache : CacheState ρ)
    (key : CacheKey) : Bool :=
  match cacheLookup cache key with
  | none => false
  | some e => if !cfg.enableCache then false else decide (now - e.mtime < cfg.cacheTTL)

/-- Model of `DataFetcher._read_cache` (returns `none` on any read error). -/
def read_cache {ρ : Type} (cache : CacheState ρ) (key : CacheKey) : Option (FetchResult ρ) :=
  (cacheLookup cache key).bind CacheEntry.content

/-- Model of `DataFetcher._write_cache`: store the payload under the key with the
current time as modification time. -/
def write_cache {ρ : Type} (now : Int) (cache : CacheState ρ) (key : CacheKey)
    (r : FetchResult ρ) : CacheState ρ :=
  (key, { mtime := now, content := some r }) :: cache

/-- Model of `DataFetcher.fetch_data`.  Here `knownEndpoint` is whether
`Config.get_api_url` succeeds (an unknown endpoint raises `ValueError`,
caught and sent to demo data).  Control flow of the source: valid cache hit
(readable) is returned with `from_cache = True`; otherwise demo mode
short-circuits to demo data; otherwise the single API attempt either
succeeds (result cached and returned) or raises, in which case an existing
readable cache file is returned stale (`from_cache = True`,
`cache_expired = True`) and failing that demo data is returned.  The
returned pair carries the result and the post-call cache state. -/
def fetch_data {ρ : Type} (cfg : FetchConfig) (now : Int) (cache : CacheState ρ)
    (knownEndpoint : Bool) (key : CacheKey)
    (api : Except String ρ) (demo : FetchResult ρ) : FetchResult ρ × CacheState ρ :=
  if !knownEndpoint then (demo, cache)
  else
    let afterMiss : FetchResult ρ × CacheState ρ :=
      if cfg.demoMode then (demo, cache)
      else
        match api with
        | .ok d =>
          let result : FetchResult ρ :=
            { data := d, from_cache := false, cache_expired := false, demo_mode := false }
          (result, write_cache now cache key result)
        | .error _ =>
          match cacheLookup cache key with
          | some e =>
            match e.content with
            | some r => ({ r with from_cache := true, cache_expired := true }, cache)
            | none => (demo, cache)
          | none => (demo, cache)
    if is_cache_valid cfg now cache key then
      match read_cache cache key with
      | some r => ({ r with from_cache := true }, cache)
      | none => afterMiss
    else afterMiss

/-- Python `"s".split(',')` on character lists (empty pieces preserved). -/
def splitOnComma : List Char → List (List Char)
  | [] => [[]]
  | c :: rest =>
    if c == ',' then [] :: splitOnComma rest
    else
      match splitOnComma rest with
      | [] => [[c]]
      | piece :: pieces => (c :: piece) :: pieces

/-- Python `s.split(',')`. -/
def pySplitComma (s : String) : List String := (splitOnComma s.data).map (fun cs => ⟨cs⟩)

/-- Python `s.strip()` (ASCII whitespace). -/
def pyStrip (s : String) : String :=
  ⟨((s.data.dropWhile pyIsSpace).reverse.dropWhile pyIsSpace).reverse⟩

/-- One synthetic record of `DataFetcher._get_demo_data`, per endpoint
shape. -/
inductive DemoRecord where
  | rain (state : String) (year : Int) (annual_rainfall_mm : Int)
      (monsoon_rainfall_mm : ℚ) (district : String)
  | production (state crop : String) (year : Int) (production_tonnes : Int)
      (area_hectares : ℚ) (yield_kg_per_hectare : Int)
  | districtCrop (state district crop : String) (production_tonnes : Int) (year : Int)
deriving DecidableEq

/-- Model of `DataFetcher._get_demo_data`.  Python's salted string hash is the
explicit parameter `pyHash`; `%` on `Int` agrees with Python's `%` for the
positive moduli used here.  Floats (`* 0.7`, `/ 2.5`) are exact in `ℚ`. -/
def get_demo_data (pyHash : String → Int) (endpoint : String)
    (filters : List (String × String)) : FetchResult (List DemoRecord) :=
  if endpoint = "imd_rainfall" then
    let states := pySplitComma ((filters.lookup "state").getD "Punjab,Haryana")
    let years : List Int := [2018, 2019, 2020, 2021, 2022, 2023]
    let records := states.flatMap (fun st =>
      years.map (fun y =>
        let base : Int := if pyStrip st = "Punjab" then 1200 else 1100
        DemoRecord.rain (pyStrip st) y (base + (y - 2018) * 50 + (pyHash st % 200 - 100))
          ((base : ℚ) * 7 / 10) (pyStrip st ++ "_District_1")))
    { data := records, from_cache := false, cache_expired := false, demo_mode := true }
  else if endpoint = "agriculture_production" then
    let states := pySplitComma ((filters.lookup "state").getD "Punjab,Haryana,Maharashtra")
    let crops := ["Rice", "Wheat", "Cotton", "Sugarcane", "Maize"]
    let years : List Int := [2018, 2019, 2020, 2021, 2022, 2023]
    let records := states.flatMap (fun st =>
      crops.flatMap (fun crop =>
        years.map (fun y =>
          let basep : Int :=
            if crop = "Rice" then 5000 else if crop = "Wheat" then 6000
            else if crop = "Cotton" then 3000 else if crop = "Sugarcane" then 8000
            else if crop = "Maize" then 4000 else 3000
          let production := basep + (y - 2018) * 200 + pyHash (st ++ crop) % 1000
          DemoRecord.production (pyStrip st) crop y production
            ((production : ℚ) * 2 / 5) 2500)))
    { data := records, from_cache := false, cache_expired := false, demo_mode := true }
  else if endpoint = "district_wise_crops" then
    let state := (filters.lookup "state").getD "Uttar Pradesh"
    let districts := [state ++ "_District_1", state ++ "_District_2", state ++ "_District_3",
                      state ++ "_District_4", state ++ "_District_5"]
    let crops := ["Wheat", "Rice", "Sugarcane", "Potato"]
    let records := districts.flatMap (fun d =>
      crops.map (fun c => DemoRecord.districtCrop state d c (1000 + pyHash (d ++ c) % 5000) 2023))
    { data := records, from_cache := false, cache_expired := false, demo_mode := true }
  else
    { data := [], from_cache := false, cache_expired := false, demo_mode := true }

end DataFetcher

/-! ## QueryEngine.process_query (src/query_engine.py)

The six pipeline steps run inside one `try`; any exception from any step is
caught at the top and converted into the fixed error answer.  Each step is a
parameter returning `Except String`, the error text standing for `str(e)`;
the result types of the steps are abstract (the analysis step's dict is
modelled by the three fields `process_query` reads from it).
`processing_time` (wall clock) is omitted. -/

namespace QueryEngine

/-- The fields `process_query` reads from the analysis-step result
(`analysis_results.get('data'|'confidence'|'data_points')`). -/
structure AnalysisOutput (δ : Type) where
  data : δ
  confidence : ℚ
  data_points : Nat

/-- The response dict of `process_query`: in the success branch
`query_type` is present and `error` absent, in the error branch the
reverse. -/
structure ProcessOutput (δ ν σ : Type) where
  answer : String
  data : δ
  visualizations : List ν
  sources : List σ
  confidence : ℚ
  data_points : Nat
  query_type : Option String
  error : Option String

/-- Steps 1–6 of the `try` block of `process_query`, sequenced so that the
first raised exception aborts the rest. -/
def pipeline {π δ ν σ : Type}
    (parse : String → Except String π)
    (fetchForQuery : π → Except String δ)
    (analyze : π → δ → Except String (AnalysisOutput δ))
    (makeViz : π → AnalysisOutput δ → Except String (List ν))
    (makeAnswer : π → AnalysisOutput δ → Except String String)
    (collectSources : δ → Except String (List σ))
    (query : String) : Except String (π × AnalysisOutput δ × List ν × String × List σ) := do
  let parsed ← parse query
  let dataResults ← fetchForQuery parsed
  let analysis ← analyze parsed dataResults
  let viz ← makeViz parsed analysis
  let answer ← makeAnswer parsed analysis
  let sources ← collectSources dataResults
  pure (parsed, analysis, viz, answer, sources)

/-- Model of `QueryEngine.process_query`: the `try` body assembled on success, the
`except Exception` handler's fixed dict on any error.  `intentOf` reads
`parsed_query['intent']`; `emptyData` is the literal `{}` of the handler. -/
def process_query {π δ ν σ : Type}
    (intentOf : π → String) (emptyData : δ)
    (parse : String → Except String π)
    (fetchForQuery : π → Except String δ)
    (analyze : π → δ → Except String (AnalysisOutput δ))
    (makeViz : π → AnalysisOutput δ → Except String (List ν))
    (makeAnswer : π → AnalysisOutput δ → Except String String)
    (collectSources : δ → Except String (List σ))
    (query : String) : ProcessOutput δ ν σ :=
  match pipeline parse fetchForQuery analyze makeViz makeAnswer collectSources query with
  | .ok (parsed, analysis, viz, answer, sources) =>
    { answer := answer
      data := analysis.data
      visualizations := viz
      sources := sources
      confidence := analysis.confidence
      data_points := analysis.data_points
      query_type := some (intentOf parsed)
      error := none }
  | .error e =>
    { answer := "I encountered an error processing your query: " ++ e ++
        ". Please try rephrasing your question."
      data := emptyData
      visualizations := []
      sources := []
      confidence := 0
      data_points := 0
      query_type := none
      error := some e }

end QueryEngine

/-! ## Shared lemmas -/

lemma startsWithL_self_append (m rest : List Char) : startsWithL m (m ++ rest) = true := by
  induction m with
  | nil => rfl
  | cons a as ih => simp [startsWithL, ih]

lemma isSubstr_nil_needle (l : List Char) : isSubstr [] l = true := by
  cases l <;> rfl

lemma isSubstr_sandwich (n pre suf : List Char) : isSubstr n (pre ++ n ++ suf) = true := by
  induction pre with
  | nil =>
    cases n with
    | nil => simpa using isSubstr_nil_needle suf
    | cons c cs =>
      simp only [List.nil_append, isSubstr, Bool.or_eq_true]
      exact Or.inl (startsWithL_self_append (c :: cs) suf)
  | cons p ps ih =>
    simp only [List.cons_append, isSubstr, Bool.or_eq_true]
    exact Or.inr (by simpa [List.append_assoc] using ih)

lemma strIn_sandwich (n pre suf : String) : strIn n (pre ++ n ++ suf) = true := by
  unfold strIn
  rw [String.data_append, String.data_append]
  exact isSubstr_sandwich n.data pre.data suf.data

/-! ## Claim theorems -/

/-- C9: `_calculate_confidence` is monotone non-decreasing in the number of
data points, takes only the values 0, 0.5, 0.7, 0.85 and 0.95, is 0 exactly
on 0 data points, and every analysis routine returns its `confidence` as
`_calculate_confidence` of its own `data_points`. -/
theorem calculate_confidence_spec :
    (∀ a b : Nat, a ≤ b →
      AnalyticsEngine.calculate_confidence a ≤ AnalyticsEngine.calculate_confidence b)
    ∧ (∀ n : Nat, AnalyticsEngine.calculate_confidence n = 0 ∨
        AnalyticsEngine.calculate_confidence n = 0.5 ∨
        AnalyticsEngine.calculate_confidence n = 0.7 ∨
        AnalyticsEngine.calculate_confidence n = 0.85 ∨
        AnalyticsEngine.calculate_confidence n = 0.95)
    ∧ (∀ n : Nat, AnalyticsEngine.calculate_confidence n = 0 ↔ n = 0)
    ∧ (∀ dr : DataResults, (AnalyticsEngine.compare_analysis dr).confidence =
        AnalyticsEngine.calculate_confidence (AnalyticsEngine.compare_analysis dr).data_points)
    ∧ (∀ (tn : Nat) (dr : DataResults), (AnalyticsEngine.top_n_analysis tn dr).confidence =
        AnalyticsEngine.calculate_confidence (AnalyticsEngine.top_n_analysis tn dr).data_points)
    ∧ (∀ dr : DataResults, (AnalyticsEngine.trend_analysis dr).confidence =
        AnalyticsEngine.calculate_confidence (AnalyticsEngine.trend_analysis dr).data_points)
    ∧ (∀ dr : DataResults, (AnalyticsEngine.correlation_analysis dr).confidence =
        AnalyticsEngine.calculate_confidence (AnalyticsEngine.correlation_analysis dr).data_points)
    ∧ (∀ dr : DataResults, (AnalyticsEngine.general_analysis dr).confidence =
        AnalyticsEngine.calculate_confidence (AnalyticsEngine.general_analysis dr).data_points)
    ∧ (∀ dr : DataResults, (AnalyticsEngine.district_analysis dr).confidence =
        AnalyticsEngine.calculate_confidence (AnalyticsEngine.district_analysis dr).data_points) := by
  refine ⟨?_, ?_, ?_, ?_, ?_, ?_, ?_, ?_, ?_⟩
  · intro a b hab
    unfold AnalyticsEngine.calculate_confidence
    split_ifs <;> (try norm_num) <;> omega
  · intro n
    unfold AnalyticsEngine.calculate_confidence
    split_ifs <;> norm_num
  · intro n
    unfold AnalyticsEngine.calculate_confidence
    split_ifs <;> norm_num <;> omega
  · intro dr
    rfl
  · intro tn dr
    unfold AnalyticsEngine.top_n_analysis
    split <;> first | rfl | (split_ifs <;> rfl) | (split <;> first | rfl | (split_ifs <;> rfl))
  · intro dr
    unfold AnalyticsEngine.trend_analysis
    split <;>
      first
        | rfl
        | (dsimp only; split_ifs <;> rfl)
        | (split <;> first | rfl | (dsimp only; split_ifs <;> rfl))
  · intro dr
    unfold AnalyticsEngine.correlation_analysis
    split <;> first | rfl | (dsimp only; split_ifs <;> rfl)
  · intro dr
    rfl
  · intro dr
    rfl

/-- C9 witness: the monotonicity and zero-characterisation conjuncts at
concrete data-point counts. -/
theorem calculate_confidence_spec_witness :
    (3 ≤ 60 ∧
      AnalyticsEngine.calculate_confidence 3 ≤ AnalyticsEngine.calculate_confidence 60) ∧
    (AnalyticsEngine.calculate_confidence 0 = 0 ↔ (0 : Nat) = 0) :=
  ⟨⟨by norm_num, calculate_confidence_spec.1 3 60 (by norm_num)⟩,
   calculate_confidence_spec.2.2.1 0⟩

/-- C2: for non-empty rainfall and production frames,
`correlation_analysis` inner-joins on `(state, year)` and produces a Pearson
result exactly when the joined table has strictly more than 5 rows, and
otherwise the empty result with `data_points = 0`. -/
theorem correlation_analysis_spec :
    ∀ (dr : DataResults) (rrows prows : List Row),
      dr.lookup "rainfall" = some rrows →
      dr.lookup "production" = some prows →
      rrows ≠ [] → prows ≠ [] →
      ((∀ r p : Row, (r, p) ∈ AnalyticsEngine.innerJoin rrows prows ↔
          (r ∈ rrows ∧ p ∈ prows ∧ r.state = p.state ∧ r.year = p.year))
       ∧ (AnalyticsEngine.correlation_analysis dr).correlation_results =
           (if 5 < (AnalyticsEngine.innerJoin rrows prows).length
            then some (AnalyticsEngine.innerJoin rrows prows).length else none)
       ∧ (AnalyticsEngine.correlation_analysis dr).data_points =
           (if 5 < (AnalyticsEngine.innerJoin rrows prows).length
            then (AnalyticsEngine.innerJoin rrows prows).length else 0)) := by
  intro dr rrows prows hr hp hrne hpne
  have hjoin : ∀ r p : Row, (r, p) ∈ AnalyticsEngine.innerJoin rrows prows ↔
      (r ∈ rrows ∧ p ∈ prows ∧ r.state = p.state ∧ r.year = p.year) := by
    intro r p
    simp only [AnalyticsEngine.innerJoin, List.mem_flatMap, List.mem_map, List.mem_filter,
      Bool.and_eq_true, beq_iff_eq, Prod.mk.injEq]
    constructor
    · rintro ⟨a, ha, b, ⟨⟨hb, hs, hy⟩, hra, hpb⟩⟩
      subst hra
      subst hpb
      exact ⟨ha, hb, hs.symm, hy.symm⟩
    · rintro ⟨hrr, hpp, hs, hy⟩
      exact ⟨r, hrr, p, ⟨⟨hpp, hs.symm, hy.symm⟩, rfl, rfl⟩⟩
  refine ⟨hjoin, ?_⟩
  have hre : rrows.isEmpty = false := by
    cases rrows with
    | nil => exact absurd rfl hrne
    | cons a as => rfl
  have hpe : prows.isEmpty = false := by
    cases prows with
    | nil => exact absurd rfl hpne
    | cons a as => rfl
  unfold AnalyticsEngine.correlation_analysis
  rw [hr, hp]
  simp only [hre, hpe, Bool.or_self, Bool.false_eq_true, if_false]
  split_ifs with h5
  · exact ⟨rfl, rfl⟩
  · exact ⟨rfl, rfl⟩

/-- Sample rainfall frame for the correlation witness: six Punjab years. -/
def corrSampleRain : List Row :=
  [⟨"Punjab", "", "", 2018, 1200, 0⟩, ⟨"Punjab", "", "", 2019, 1250, 0⟩,
   ⟨"Punjab", "", "", 2020, 1100, 0⟩, ⟨"Punjab", "", "", 2021, 1300, 0⟩,
   ⟨"Punjab", "", "", 2022, 1150, 0⟩, ⟨"Punjab", "", "", 2023, 1350, 0⟩]

/-- Sample production frame for the correlation witness: the same six
`(state, year)` keys. -/
def corrSampleProd : List Row :=
  [⟨"Punjab", "", "Rice", 2018, 0, 5000⟩, ⟨"Punjab", "", "Rice", 2019, 0, 5200⟩,
   ⟨"Punjab", "", "Rice", 2020, 0, 4800⟩, ⟨"Punjab", "", "Rice", 2021, 0, 5400⟩,
   ⟨"Punjab", "", "Rice", 2022, 0, 4900⟩, ⟨"Punjab", "", "Rice", 2023, 0, 5600⟩]

/-- Sample `data_results` for the correlation witness. -/
def corrSampleDR : DataResults :=
  [("rainfall", corrSampleRain), ("production", corrSampleProd)]

/-- C2 witness: the equality conjuncts of `correlation_analysis_spec` at a
concrete pair of six-row frames whose join has six rows. -/
theorem correlation_analysis_spec_witness :
    (AnalyticsEngine.correlation_analysis corrSampleDR).correlation_results =
      (if 5 < (AnalyticsEngine.innerJoin corrSampleRain corrSampleProd).length
       then some (AnalyticsEngine.innerJoin corrSampleRain corrSampleProd).length else none) ∧
    (AnalyticsEngine.correlation_analysis corrSampleDR).data_points =
      (if 5 < (AnalyticsEngine.innerJoin corrSampleRain corrSampleProd).length
       then (AnalyticsEngine.innerJoin corrSampleRain corrSampleProd).length else 0) :=
  (correlation_analysis_spec corrSampleDR corrSampleRain corrSampleProd rfl rfl
    (by decide) (by decide)).2

lemma classify_direction_iff (t avg : ℚ) (ht : 0 ≤ t) :
    ((if t < avg then "increasing" else if avg < -t then "decreasing" else "stable") = "increasing"
      ↔ t < avg)
    ∧ ((if t < avg then "increasing" else if avg < -t then "decreasing" else "stable") = "decreasing"
      ↔ avg < -t)
    ∧ ((if t < avg then "increasing" else if avg < -t then "decreasing" else "stable") = "stable"
      ↔ (-t ≤ avg ∧ avg ≤ t)) := by
  by_cases h1 : t < avg
  · rw [if_pos h1]
    exact ⟨iff_of_true rfl h1,
      iff_of_false (by decide) (by intro h2; linarith),
      iff_of_false (by decide) (fun hc => absurd h1 (not_lt.mpr hc.2))⟩
  · rw [if_neg h1]
    by_cases h2 : avg < -t
    · rw [if_pos h2]
      exact ⟨iff_of_false (by decide) h1, iff_of_true rfl h2,
        iff_of_false (by decide) (fun hc => absurd h2 (not_lt.mpr hc.1))⟩
    · rw [if_neg h2]
      exact ⟨iff_of_false (by decide) h1, iff_of_false (by decide) h2,
        iff_of_true rfl ⟨le_of_not_lt h2, le_of_not_lt h1⟩⟩

lemma yearly_production_total_length (rows : List Row) :
    (AnalyticsEngine.yearly_production_total rows).length =
      ((rows.map Row.year).dedup).length := by
  unfold AnalyticsEngine.yearly_production_total
  rw [List.length_map, (List.perm_insertionSort _ _).length_eq]

lemma yearly_rainfall_mean_length (rows : List Row) :
    (AnalyticsEngine.yearly_rainfall_mean rows).length =
      ((rows.map Row.year).dedup).length := by
  unfold AnalyticsEngine.yearly_rainfall_mean
  rw [List.length_map, (List.perm_insertionSort _ _).length_eq]

/-- C1: whenever the production frame has more than one distinct year,
`trend_analysis` produces a summary whose direction is the threshold
classification of its mean year-over-year growth rate (in percent) at ±2;
when only rainfall data is analysed (no `production` key) the same
classification is applied with thresholds ±1. -/
theorem trend_direction_spec :
    (∀ (dr : DataResults) (rows : List Row) (ts : AnalyticsEngine.TrendSummary),
      dr.lookup "production" = some rows →
      1 < ((rows.map Row.year).dedup).length →
      (AnalyticsEngine.trend_analysis dr).trend_summary = some ts →
      (ts.growth_rate =
        AnalyticsEngine.avg_growth_of ((AnalyticsEngine.yearly_production_total rows).map Prod.snd)
       ∧ (ts.direction = "increasing" ↔ 2 < ts.growth_rate)
       ∧ (ts.direction = "decreasing" ↔ ts.growth_rate < -2)
       ∧ (ts.direction = "stable" ↔ (-2 ≤ ts.growth_rate ∧ ts.growth_rate ≤ 2))))
    ∧ (∀ (dr : DataResults) (rows : List Row),
      dr.lookup "production" = some rows →
      1 < ((rows.map Row.year).dedup).length →
      (AnalyticsEngine.trend_analysis dr).trend_summary ≠ none)
    ∧ (∀ (dr : DataResults) (rows : List Row) (ts : AnalyticsEngine.TrendSummary),
      dr.lookup "production" = none →
      dr.lookup "rainfall" = some rows →
      1 < ((rows.map Row.year).dedup).length →
      (AnalyticsEngine.trend_analysis dr).trend_summary = some ts →
      (ts.growth_rate =
        AnalyticsEngine.avg_growth_of ((AnalyticsEngine.yearly_rainfall_mean rows).map Prod.snd)
       ∧ (ts.direction = "increasing" ↔ 1 < ts.growth_rate)
       ∧ (ts.direction = "decreasing" ↔ ts.growth_rate < -1)
       ∧ (ts.direction = "stable" ↔ (-1 ≤ ts.growth_rate ∧ ts.growth_rate ≤ 1))))
    ∧ (∀ (dr : DataResults) (rows : List Row),
      dr.lookup "production" = none →
      dr.lookup "rainfall" = some rows →
      1 < ((rows.map Row.year).dedup).length →
      (AnalyticsEngine.trend_analysis dr).trend_summary ≠ none) := by
  have hprod : ∀ (dr : DataResults) (rows : List Row),
      dr.lookup "production" = some rows →
      1 < ((rows.map Row.year).dedup).length →
      (AnalyticsEngine.trend_analysis dr).trend_summary =
        some (AnalyticsEngine.mkTrendSummary (AnalyticsEngine.yearly_production_total rows)
          (if 2 < AnalyticsEngine.avg_growth_of
              ((AnalyticsEngine.yearly_production_total rows).map Prod.snd) then "increasing"
           else if AnalyticsEngine.avg_growth_of
              ((AnalyticsEngine.yearly_production_total rows).map Prod.snd) < -2 then "decreasing"
           else "stable")
          (AnalyticsEngine.avg_growth_of
            ((AnalyticsEngine.yearly_production_total rows).map Prod.snd))) := by
    intro dr rows hp hyears
    have hne : rows ≠ [] := by
      rintro rfl
      simp at hyears
    have hre : rows.isEmpty = false := by
      cases rows with
      | nil => exact absurd rfl hne
      | cons a as => rfl
    have hlen : 1 < (AnalyticsEngine.yearly_production_total rows).length := by
      rw [yearly_production_total_length]; exact hyears
    unfold AnalyticsEngine.trend_analysis
    rw [hp]
    simp only [hre, Bool.false_eq_true, if_false, if_pos hlen]
  have hrain : ∀ (dr : DataResults) (rows : List Row),
      dr.lookup "production" = none →
      dr.lookup "rainfall" = some rows →
      1 < ((rows.map Row.year).dedup).length →
      (AnalyticsEngine.trend_analysis dr).trend_summary =
        some (AnalyticsEngine.mkTrendSummary (AnalyticsEngine.yearly_rainfall_mean rows)
          (if 1 < AnalyticsEngine.avg_growth_of
              ((AnalyticsEngine.yearly_rainfall_mean rows).map Prod.snd) then "increasing"
           else if AnalyticsEngine.avg_growth_of
              ((AnalyticsEngine.yearly_rainfall_mean rows).map Prod.snd) < -1 then "decreasing"
           else "stable")
          (AnalyticsEngine.avg_growth_of
            ((AnalyticsEngine.yearly_rainfall_mean rows).map Prod.snd))) := by
    intro dr rows hp hr hyears
    have hne : rows ≠ [] := by
      rintro rfl
      simp at hyears
    have hre : rows.isEmpty = false := by
      cases rows with
      | nil => exact absurd rfl hne
      | cons a as => rfl
    have hlen : 1 < (AnalyticsEngine.yearly_rainfall_mean rows).length := by
      rw [yearly_rainfall_mean_length]; exact hyears
    unfold AnalyticsEngine.trend_analysis
    rw [hp, hr]
    simp only [hre, Bool.false_eq_true, if_false, if_pos hlen]
  refine ⟨?_, ?_, ?_, ?_⟩
  · intro dr rows ts hp hyears hsum
    rw [hprod dr rows hp hyears, Option.some.injEq] at hsum
    subst hsum
    refine ⟨rfl, ?_⟩
    exact classify_direction_iff 2
      (AnalyticsEngine.avg_growth_of
        ((AnalyticsEngine.yearly_production_total rows).map Prod.snd)) (by norm_num)
  · intro dr rows hp hyears
    rw [hprod dr rows hp hyears]
    exact Option.some_ne_none _
  · intro dr rows ts hp hr hyears hsum
    rw [hrain dr rows hp hr hyears, Option.some.injEq] at hsum
    subst hsum
    refine ⟨rfl, ?_⟩
    exact classify_direction_iff 1
      (AnalyticsEngine.avg_growth_of
        ((AnalyticsEngine.yearly_rainfall_mean rows).map Prod.snd)) (by norm_num)
  · intro dr rows hp hr hyears
    rw [hrain dr rows hp hr hyears]
    exact Option.some_ne_none _

/-- Sample production frame for the trend witness: two distinct years. -/
def trendSampleProd : List Row :=
  [⟨"Punjab", "", "Rice", 2018, 0, 100⟩, ⟨"Punjab", "", "Rice", 2019, 0, 200⟩]

/-- Sample `data_results` for the trend witness. -/
def trendSampleDR : DataResults := [("production", trendSampleProd)]

/-- C1 witness: on a concrete production frame with two distinct years,
`trend_analysis` produces a summary (the production-existence conjunct of
`trend_direction_spec` at that frame). -/
theorem trend_direction_spec_witness :
    (AnalyticsEngine.trend_analysis trendSampleDR).trend_summary ≠ none :=
  trend_direction_spec.2.1 trendSampleDR trendSampleProd rfl (by decide)

/-- C8: if any pipeline step raises, `process_query` catches the exception
and returns the fixed error dict: a user-facing answer containing the
exception text, empty data, no visualizations, no sources and confidence
0.0 (the function is total, so nothing propagates to the caller). -/
theorem process_query_catches_errors :
    ∀ {π δ ν σ : Type} (intentOf : π → String) (emptyData : δ)
      (parse : String → Except String π)
      (fetchForQuery : π → Except String δ)
      (analyze : π → δ → Except String (QueryEngine.AnalysisOutput δ))
      (makeViz : π → QueryEngine.AnalysisOutput δ → Except String (List ν))
      (makeAnswer : π → QueryEngine.AnalysisOutput δ → Except String String)
      (collectSources : δ → Except String (List σ))
      (query : String) (e : String),
      QueryEngine.pipeline parse fetchForQuery analyze makeViz makeAnswer collectSources query =
        Except.error e →
      ((QueryEngine.process_query intentOf emptyData parse fetchForQuery analyze makeViz
          makeAnswer collectSources query).answer =
        "I encountered an error processing your query: " ++ e ++
          ". Please try rephrasing your question."
       ∧ strIn e (QueryEngine.process_query intentOf emptyData parse fetchForQuery analyze
          makeViz makeAnswer collectSources query).answer = true
       ∧ (QueryEngine.process_query intentOf emptyData parse fetchForQuery analyze makeViz
          makeAnswer collectSources query).data = emptyData
       ∧ (QueryEngine.process_query intentOf emptyData parse fetchForQuery analyze makeViz
          makeAnswer collectSources query).visualizations = []
       ∧ (QueryEngine.process_query intentOf emptyData parse fetchForQuery analyze makeViz
          makeAnswer collectSources query).sources = []
       ∧ (QueryEngine.process_query intentOf emptyData parse fetchForQuery analyze makeViz
          makeAnswer collectSources query).confidence = 0
       ∧ (QueryEngine.process_query intentOf emptyData parse fetchForQuery analyze makeViz
          makeAnswer collectSources query).error = some e) := by
  intro π δ ν σ intentOf emptyData parse fetchForQuery analyze makeViz makeAnswer
    collectSources query e herr
  unfold QueryEngine.process_query
  rw [herr]
  refine ⟨rfl, ?_, rfl, rfl, rfl, rfl, rfl⟩
  exact strIn_sandwich e "I encountered an error processing your query: "
    ". Please try rephrasing your question."

/-- Failing parse step for the C8 witness. -/
def failingParse : String → Except String Unit := fun _ => Except.error "boom"

/-- Trivial remaining steps for the C8 witness. -/
def okFetch : Unit → Except String Unit := fun _ => Except.ok ()

/-- Trivial analysis step for the C8 witness. -/
def okAnalyze : Unit → Unit → Except String (QueryEngine.AnalysisOutput Unit) :=
  fun _ _ => Except.ok { data := (), confidence := 0, data_points := 0 }

/-- Trivial visualization step for the C8 witness. -/
def okViz : Unit → QueryEngine.AnalysisOutput Unit → Except String (List Unit) :=
  fun _ _ => Except.ok []

/-- Trivial answer step for the C8 witness. -/
def okAnswer : Unit → QueryEngine.AnalysisOutput Unit → Except String String :=
  fun _ _ => Except.ok ""

/-- Trivial source-collection step for the C8 witness. -/
def okSources : Unit → Except String (List Unit) :=
  fun _ => Except.ok []

/-- C8 witness: a pipeline whose parse step raises `"boom"` yields the fixed
error dict. -/
theorem process_query_catches_errors_witness :
    (QueryEngine.process_query (fun _ => "retrieve") () failingParse okFetch okAnalyze okViz
        okAnswer okSources "compare rainfall").answer =
      "I encountered an error processing your query: " ++ "boom" ++
        ". Please try rephrasing your question."
    ∧ strIn "boom" (QueryEngine.process_query (fun _ => "retrieve") () failingParse okFetch
        okAnalyze okViz okAnswer okSources "compare rainfall").answer = true
    ∧ (QueryEngine.process_query (fun _ => "retrieve") () failingParse okFetch okAnalyze okViz
        okAnswer okSources "compare rainfall").data = ()
    ∧ (QueryEngine.process_query (fun _ => "retrieve") () failingParse okFetch okAnalyze okViz
        okAnswer okSources "compare rainfall").visualizations = []
    ∧ (QueryEngine.process_query (fun _ => "retrieve") () failingParse okFetch okAnalyze okViz
        okAnswer okSources "compare rainfall").sources = []
    ∧ (QueryEngine.process_query (fun _ => "retrieve") () failingParse okFetch okAnalyze okViz
        okAnswer okSources "compare rainfall").confidence = 0
    ∧ (QueryEngine.process_query (fun _ => "retrieve") () failingParse okFetch okAnalyze okViz
        okAnswer okSources "compare rainfall").error = some "boom" :=
  process_query_catches_errors (fun _ => "retrieve") () failingParse okFetch okAnalyze okViz
    okAnswer okSources "compare rainfall" "boom" rfl

/-- C4: a cached entry read back before its time-to-live has elapsed (age
measured from the write's modification time) is returned by `fetch_data`
with its payload unchanged; only the `from_cache` marker is set. -/
theorem cache_roundtrip_spec :
    ∀ (ρ : Type) (cfg : DataFetcher.FetchConfig) (t now : Int)
      (cache : DataFetcher.CacheState ρ) (key : DataFetcher.CacheKey)
      (r : DataFetcher.FetchResult ρ) (api : Except String ρ)
      (demo : DataFetcher.FetchResult ρ),
      cfg.enableCache = true →
      now - t < cfg.cacheTTL →
      ((DataFetcher.fetch_data cfg now (DataFetcher.write_cache t cache key r) true key
          api demo).1 = { r with from_cache := true }
       ∧ (DataFetcher.fetch_data cfg now (DataFetcher.write_cache t cache key r) true key
          api demo).1.data = r.data) := by
  intro ρ cfg t now cache key r api demo hen httl
  have hvalid : DataFetcher.is_cache_valid cfg now
      (DataFetcher.write_cache t cache key r) key = true := by
    unfold DataFetcher.is_cache_valid DataFetcher.write_cache DataFetcher.cacheLookup
    rw [if_pos rfl]
    simp [hen, httl]
  have hread : DataFetcher.read_cache (DataFetcher.write_cache t cache key r) key = some r := by
    unfold DataFetcher.read_cache DataFetcher.write_cache DataFetcher.cacheLookup
    rw [if_pos rfl]
    rfl
  unfold DataFetcher.fetch_data
  simp only [Bool.not_true, Bool.false_eq_true, if_false, hvalid, if_true, hread]
  refine ⟨?_, ?_⟩ <;> trivial

/-- C5: a cache entry whose age has reached the time-to-live is invalid
(`_is_cache_valid` is false) and, with a successful live fetch, `fetch_data`
returns the fresh API payload rather than the cached one. -/
theorem cache_expiry_spec :
    ∀ (ρ : Type) (cfg : DataFetcher.FetchConfig) (now : Int)
      (cache : DataFetcher.CacheState ρ) (key : DataFetcher.CacheKey)
      (en : DataFetcher.CacheEntry ρ) (api : Except String ρ)
      (demo : DataFetcher.FetchResult ρ) (d : ρ),
      DataFetcher.cacheLookup cache key = some en →
      cfg.cacheTTL ≤ now - en.mtime →
      (DataFetcher.is_cache_valid cfg now cache key = false
       ∧ (cfg.demoMode = false → api = Except.ok d →
          (DataFetcher.fetch_data cfg now cache true key api demo).1 =
            { data := d, from_cache := false, cache_expired := false, demo_mode := false })) := by
  intro ρ cfg now cache key en api demo d hlook httl
  have hvalid : DataFetcher.is_cache_valid cfg now cache key = false := by
    unfold DataFetcher.is_cache_valid
    rw [hlook]
    cases hE : cfg.enableCache with
    | false => simp [hE]
    | true =>
      simp only [hE, Bool.not_true, Bool.false_eq_true, if_false]
      rw [decide_eq_false_iff_not]
      omega
  refine ⟨hvalid, ?_⟩
  intro hdm hapi
  unfold DataFetcher.fetch_data
  simp only [Bool.not_true, Bool.false_eq_true, if_false, hvalid, hdm, hapi]

/-- C6: when the live API request fails, `fetch_data` returns the stale
cached payload if the cache file exists and is readable (marking it
`from_cache` and `cache_expired`), and otherwise the synthetic demo data;
demo data always carries `demo_mode = True`.  (`fetch_data` is a total
function, so no failure case raises, and the single `api` argument is
consulted exactly once, so nothing is retried.) -/
theorem fetch_failure_fallback_spec :
    ∀ (cfg : DataFetcher.FetchConfig) (now : Int)
      (cache : DataFetcher.CacheState (List DataFetcher.DemoRecord))
      (endpoint : String) (filters : List (String × String))
      (pyHash : String → Int) (e : String),
      cfg.demoMode = false →
      DataFetcher.is_cache_valid cfg now cache (DataFetcher.get_cache_key endpoint filters) =
        false →
      ((∀ (en : DataFetcher.CacheEntry (List DataFetcher.DemoRecord))
          (r : DataFetcher.FetchResult (List DataFetcher.DemoRecord)),
          DataFetcher.cacheLookup cache (DataFetcher.get_cache_key endpoint filters) = some en →
          en.content = some r →
          (DataFetcher.fetch_data cfg now cache true (DataFetcher.get_cache_key endpoint filters)
            (Except.error e) (DataFetcher.get_demo_data pyHash endpoint filters)).1 =
            { r with from_cache := true, cache_expired := true })
       ∧ (∀ (en : DataFetcher.CacheEntry (List DataFetcher.DemoRecord)),
          DataFetcher.cacheLookup cache (DataFetcher.get_cache_key endpoint filters) = some en →
          en.content = none →
          (DataFetcher.fetch_data cfg now cache true (DataFetcher.get_cache_key endpoint filters)
            (Except.error e) (DataFetcher.get_demo_data pyHash endpoint filters)).1 =
            DataFetcher.get_demo_data pyHash endpoint filters)
       ∧ (DataFetcher.cacheLookup cache (DataFetcher.get_cache_key endpoint filters) = none →
          (DataFetcher.fetch_data cfg now cache true (DataFetcher.get_cache_key endpoint filters)
            (Except.error e) (DataFetcher.get_demo_data pyHash endpoint filters)).1 =
            DataFetcher.get_demo_data pyHash endpoint filters)
       ∧ (DataFetcher.get_demo_data pyHash endpoint filters).demo_mode = true) := by
  intro cfg now cache endpoint filters pyHash e hdm hvalid
  refine ⟨?_, ?_, ?_, ?_⟩
  · intro en r hlook hcont
    unfold DataFetcher.fetch_data
    simp only [Bool.not_true, Bool.false_eq_true, if_false, hvalid, hdm, hlook, hcont]
  · intro en hlook hcont
    unfold DataFetcher.fetch_data
    simp only [Bool.not_true, Bool.false_eq_true, if_false, hvalid, hdm, hlook, hcont]
  · intro hlook
    unfold DataFetcher.fetch_data
    simp only [Bool.not_true, Bool.false_eq_true, if_false, hvalid, hdm, hlook]
  · unfold DataFetcher.get_demo_data
    split_ifs <;> rfl

/-- Configuration used by the cache witnesses: caching enabled with the
configured `CACHE_TTL`, demo mode off. -/
def cacheCfgSample : DataFetcher.FetchConfig :=
  { enableCache := true, cacheTTL := Config.CACHE_TTL, demoMode := false }

/-- Cache key used by the cache witnesses. -/
def cacheKeySample : DataFetcher.CacheKey :=
  DataFetcher.get_cache_key "imd_rainfall" [("state", "Punjab")]

/-- Payload used by the cache witnesses. -/
def cachePayloadSample : DataFetcher.FetchResult Nat :=
  { data := 7, from_cache := false, cache_expired := false, demo_mode := false }

/-- Demo fallback used by the `Nat`-payload cache witnesses. -/
def demoSampleNat : DataFetcher.FetchResult Nat :=
  { data := 0, from_cache := false, cache_expired := false, demo_mode := true }

/-- C4 witness: write at time 1000, read at 1500 (age 500 < 3600). -/
theorem cache_roundtrip_spec_witness :
    ((DataFetcher.fetch_data cacheCfgSample 1500
        (DataFetcher.write_cache 1000 [] cacheKeySample cachePayloadSample) true cacheKeySample
        (Except.error "down") demoSampleNat).1 = { cachePayloadSample with from_cache := true }
     ∧ (DataFetcher.fetch_data cacheCfgSample 1500
        (DataFetcher.write_cache 1000 [] cacheKeySample cachePayloadSample) true cacheKeySample
        (Except.error "down") demoSampleNat).1.data = cachePayloadSample.data) :=
  cache_roundtrip_spec Nat cacheCfgSample 1000 1500 [] cacheKeySample cachePayloadSample
    (Except.error "down") demoSampleNat rfl (by decide)

/-- C5 witness: entry written at 1000, fetched at 5000 (age 4000 ≥ 3600),
live API returning 42. -/
theorem cache_expiry_spec_witness :
    (DataFetcher.is_cache_valid cacheCfgSample 5000
        [(cacheKeySample, { mtime := 1000, content := some cachePayloadSample })]
        cacheKeySample = false
     ∧ (DataFetcher.fetch_data cacheCfgSample 5000
        [(cacheKeySample, { mtime := 1000, content := some cachePayloadSample })] true
        cacheKeySample (Except.ok 42) demoSampleNat).1 =
        { data := 42, from_cache := false, cache_expired := false, demo_mode := false }) :=
  have h := cache_expiry_spec Nat cacheCfgSample 5000
    [(cacheKeySample, { mtime := 1000, content := some cachePayloadSample })] cacheKeySample
    { mtime := 1000, content := some cachePayloadSample } (Except.ok 42) demoSampleNat 42
    (by decide) (by decide)
  ⟨h.1, h.2 rfl rfl⟩

/-- Stale payload for the C6 witness. -/
def staleResultSample : DataFetcher.FetchResult (List DataFetcher.DemoRecord) :=
  { data := [], from_cache := false, cache_expired := false, demo_mode := false }

/-- Cache containing one expired readable entry, for the C6 witness. -/
def staleCacheSample : DataFetcher.CacheState (List DataFetcher.DemoRecord) :=
  [(cacheKeySample, { mtime := 1000, content := some staleResultSample })]

/-- C6 witness: at time 5000 the entry is expired; a failing API request
returns it stale, and demo data carries the demo marker. -/
theorem fetch_failure_fallback_spec_witness :
    ((DataFetcher.fetch_data cacheCfgSample 5000 staleCacheSample true cacheKeySample
        (Except.error "timeout")
        (DataFetcher.get_demo_data (fun _ => 0) "imd_rainfall" [("state", "Punjab")])).1 =
      { staleResultSample with from_cache := true, cache_expired := true }
     ∧ (DataFetcher.get_demo_data (fun _ => 0) "imd_rainfall"
        [("state", "Punjab")]).demo_mode = true) :=
  have h := fetch_failure_fallback_spec cacheCfgSample 5000 staleCacheSample "imd_rainfall"
    [("state", "Punjab")] (fun _ => 0) "timeout" rfl (by decide)
  ⟨h.1 { mtime := 1000, content := some staleResultSample } staleResultSample rfl rfl,
   h.2.2.2⟩

/-- C7 counterexample: the query `"top 5 or top 3"` contains the phrase
`"top 3"`, yet `_extract_top_n` returns 5 (the number after the leftmost
`top\s+\d+` match), not 3 — so containing `"top 3"` does not imply the
result 3. -/
theorem extract_top_n_counterexample :
    strIn "top 3" (strToLower "top 5 or top 3") = true
    ∧ QueryEngine.extract_top_n "top 5 or top 3" = 5
    ∧ QueryEngine.extract_top_n "top 5 or top 3" ≠ 3 := by
  refine ⟨by decide, by decide, by decide⟩

lemma findTopMatch_leftmost :
    ∀ (i : Nat) (cs : List Char) (n : Nat),
      QueryEngine.matchTopAt (cs.drop i) = some n →
      (∀ j, j < i → QueryEngine.matchTopAt (cs.drop j) = none) →
      QueryEngine.findTopMatch cs = some n := by
  intro i
  induction i with
  | zero =>
    intro cs n h _
    rw [List.drop_zero] at h
    cases cs with
    | nil => exact absurd h (by simp [QueryEngine.matchTopAt])
    | cons c rest =>
      unfold QueryEngine.findTopMatch
      rw [h]
  | succ j ih =>
    intro cs n h hpre
    cases cs with
    | nil =>
      rw [List.drop_nil] at h
      exact absurd h (by simp [QueryEngine.matchTopAt])
    | cons c rest =>
      have h0 : QueryEngine.matchTopAt (c :: rest) = none := by
        have h00 := hpre 0 (Nat.succ_pos j)
        rwa [List.drop_zero] at h00
      unfold QueryEngine.findTopMatch
      rw [h0]
      refine ih rest n (by simpa using h) ?_
      intro k hk
      have hk1 := hpre (k + 1) (Nat.succ_lt_succ hk)
      simpa using hk1

/-- C7 (amended): `_extract_top_n` returns the number captured at the
leftmost position where the pattern `top\s+(\d+)` matches; in particular a
query whose first such occurrence is `top 3` yields 3. -/
theorem extract_top_n_leftmost :
    ∀ (query : String) (i n : Nat),
      QueryEngine.matchTopAt ((strToLower query).data.drop i) = some n →
      (∀ j, j < i → QueryEngine.matchTopAt ((strToLower query).data.drop j) = none) →
      QueryEngine.extract_top_n query = n := by
  intro query i n h hpre
  unfold QueryEngine.extract_top_n
  rw [findTopMatch_leftmost i (strToLower query).data n h hpre]

/-- C7 witness: `"top 3 crops"` matches at position 0 and yields 3. -/
theorem extract_top_n_leftmost_witness :
    QueryEngine.extract_top_n "top 3 crops" = 3 :=
  extract_top_n_leftmost "top 3 crops" 0 3 (by decide)
    (fun j hj => absurd hj (Nat.not_lt_zero j))

/-- C3 counterexample: in `"rice up goa punjab"` exactly two state names
(Goa, Punjab) and exactly one crop name (Rice) occur as case-insensitive
substrings, yet `_extract_states` also returns Uttar Pradesh, because the
stray word `"up"` matches the state abbreviation `UP`. -/
theorem entity_extraction_counterexample :
    Config.INDIAN_STATES.filter
      (fun s => strIn (strToLower s) (strToLower "rice up goa punjab")) = ["Goa", "Punjab"]
    ∧ Config.MAJOR_CROPS.filter
      (fun c => strIn (strToLower c) (strToLower "rice up goa punjab")) = ["Rice"]
    ∧ QueryEngine.extract_states "rice up goa punjab" = ["Goa", "Punjab", "Uttar Pradesh"]
    ∧ ("Uttar Pradesh" ∈ QueryEngine.extract_states "rice up goa punjab"
       ∧ "Uttar Pradesh" ≠ "Goa" ∧ "Uttar Pradesh" ≠ "Punjab") := by
  refine ⟨by decide, by decide, by decide, by decide, by decide, by decide⟩

lemma foldl_abbrev_noop (query : String) :
    ∀ (l : List (String × String)) (acc : List String),
      (∀ ab ∈ l, QueryEngine.abbrevMatches ab.1 query = false) →
      l.foldl
        (fun acc ab =>
          if QueryEngine.abbrevMatches ab.1 query then
            (if acc.contains ab.2 then acc else acc ++ [ab.2])
          else acc)
        acc = acc := by
  intro l
  induction l with
  | nil => intro acc _; rfl
  | cons ab rest ih =>
    intro acc h
    rw [List.foldl_cons, h ab (List.mem_cons_self ab rest)]
    simp only [Bool.false_eq_true, if_false]
    exact ih acc (fun x hx => h x (List.mem_cons_of_mem ab hx))

lemma extract_states_no_abbrev (query : String)
    (h : ∀ ab ∈ Config.STATE_ABBREVIATIONS, QueryEngine.abbrevMatches ab.1 query = false) :
    QueryEngine.extract_states query =
      Config.INDIAN_STATES.filter (fun s => strIn (strToLower s) (strToLower query)) := by
  unfold QueryEngine.extract_states
  exact foldl_abbrev_noop query Config.STATE_ABBREVIATIONS _ h

lemma foldl_category_noop (ql : String) :
    ∀ (l : List (String × List String)) (acc : List String),
      (∀ cat ∈ l, strIn cat.1 ql = false) →
      l.foldl (fun acc cat => if strIn cat.1 ql then acc ++ cat.2 else acc) acc = acc := by
  intro l
  induction l with
  | nil => intro acc _; rfl
  | cons cat rest ih =>
    intro acc h
    rw [List.foldl_cons, h cat (List.mem_cons_self cat rest)]
    simp only [Bool.false_eq_true, if_false]
    exact ih acc (fun x hx => h x (List.mem_cons_of_mem cat hx))

lemma extract_crops_no_category (query : String)
    (h : ∀ cat ∈ Config.CROP_CATEGORIES, strIn cat.1 (strToLower query) = false) :
    QueryEngine.extract_crops query =
      (Config.MAJOR_CROPS.filter (fun c => strIn (strToLower c) (strToLower query))).dedup := by
  unfold QueryEngine.extract_crops
  dsimp only
  rw [foldl_category_noop (strToLower query) Config.CROP_CATEGORIES _ h]

/-- C3 (amended): for a query containing exactly two known state names and
exactly one known crop name as case-insensitive substrings — and, as the
counterexample forces, no state abbreviation delimited as in
`_extract_states` and no crop-category keyword — entity extraction returns
exactly those two states and exactly that crop, order-insensitively. -/
theorem entity_extraction_amended :
    ∀ (query s1 s2 c : String),
      s1 ∈ Config.INDIAN_STATES → s2 ∈ Config.INDIAN_STATES → s1 ≠ s2 →
      strIn (strToLower s1) (strToLower query) = true →
      strIn (strToLower s2) (strToLower query) = true →
      (∀ s ∈ Config.INDIAN_STATES, strIn (strToLower s) (strToLower query) = true →
        s = s1 ∨ s = s2) →
      (∀ ab ∈ Config.STATE_ABBREVIATIONS, QueryEngine.abbrevMatches ab.1 query = false) →
      c ∈ Config.MAJOR_CROPS →
      strIn (strToLower c) (strToLower query) = true →
      (∀ c' ∈ Config.MAJOR_CROPS, strIn (strToLower c') (strToLower query) = true → c' = c) →
      (∀ cat ∈ Config.CROP_CATEGORIES, strIn cat.1 (strToLower query) = false) →
      ((∀ s, s ∈ QueryEngine.extract_states query ↔ (s = s1 ∨ s = s2))
       ∧ (∀ c', c' ∈ QueryEngine.extract_crops query ↔ c' = c)) := by
  intro query s1 s2 c hs1 hs2 _hne hin1 hin2 honly hnoab hc hinc honlyc hnocat
  constructor
  · intro s
    rw [extract_states_no_abbrev query hnoab, List.mem_filter]
    constructor
    · rintro ⟨hmem, hpred⟩
      exact honly s hmem hpred
    · rintro (rfl | rfl)
      · exact ⟨hs1, hin1⟩
      · exact ⟨hs2, hin2⟩
  · intro c'
    rw [extract_crops_no_category query hnocat, List.mem_dedup, List.mem_filter]
    constructor
    · rintro ⟨hmem, hpred⟩
      exact honlyc c' hmem hpred
    · rintro rfl
      exact ⟨hc, hinc⟩

/-- C3 witness: `"compare rice in punjab and goa"` satisfies every
hypothesis of the amended claim, and extraction indeed contains the named
entities. -/
theorem entity_extraction_amended_witness :
    "Punjab" ∈ QueryEngine.extract_states "compare rice in punjab and goa"
    ∧ "Rice" ∈ QueryEngine.extract_crops "compare rice in punjab and goa" :=
  have h := entity_extraction_amended "compare rice in punjab and goa" "Punjab" "Goa" "Rice"
    (by decide) (by decide) (by decide) (by decide) (by decide) (by decide) (by decide)
    (by decide) (by decide) (by decide) (by decide)
  ⟨(h.1 "Punjab").2 (Or.inl rfl), (h.2 "Rice").2 rfl⟩

lemma sorted_dedup_sort (l : List Int) :
    List.Sorted (· < ·) ((l.dedup).insertionSort (· ≤ ·)) := by
  have hs : List.Sorted (· ≤ ·) ((l.dedup).insertionSort (· ≤ ·)) :=
    List.sorted_insertionSort _ _
  have hn : ((l.dedup).insertionSort (· ≤ ·)).Nodup :=
    ((List.perm_insertionSort (· ≤ ·) l.dedup).nodup_iff).2 (List.nodup_dedup l)
  exact (hs.and hn).imp (fun h => lt_of_le_of_ne h.1 h.2)

lemma dedup_sort_ne_nil (l : List Int) (h : l ≠ []) :
    (l.dedup).insertionSort (· ≤ ·) ≠ [] := by
  intro hnil
  have hperm := List.perm_insertionSort (· ≤ ·) l.dedup
  rw [hnil] at hperm
  exact h ((List.dedup_eq_nil l).mp hperm.symm.eq_nil)

lemma ite_empty_ne_nil (l d : List Int) (hd : d ≠ []) :
    (if l.isEmpty then d else l) ≠ [] := by
  cases l with
  | nil => simpa using hd
  | cons a as => simp

lemma pyRange_nodup (a b : Int) : (pyRange a b).Nodup := by
  unfold pyRange
  refine (List.nodup_range ((b - a).toNat)).map ?_
  intro i j hij
  dsimp only at hij
  omega

lemma pyRange_sorted (a b : Int) : List.Sorted (· ≤ ·) (pyRange a b) := by
  unfold pyRange
  refine List.pairwise_map.2 ?_
  refine (List.pairwise_lt_range _).imp ?_
  intro i j hij
  omega

lemma pyRange_five (cy : Int) :
    pyRange (cy - 5) cy = [cy - 5, cy - 4, cy - 3, cy - 2, cy - 1] := by
  unfold pyRange
  have h5 : (cy - (cy - 5)).toNat = 5 := by omega
  rw [h5, show List.range 5 = [0, 1, 2, 3, 4] from rfl]
  simp only [List.map_cons, List.map_nil, List.cons.injEq, and_true]
  refine ⟨by omega, by omega, by omega, by omega, by omega⟩

/-- C10: for every query, `_extract_years` returns a non-empty, strictly
increasing (hence duplicate-free) list of integers; and when the query has
no explicit-year match, no `last N years` phrase and no decade reference,
it returns the 5 calendar years preceding the current year. -/
theorem extract_years_spec :
    ∀ (currentYear : Int) (query : String),
      (QueryEngine.extract_years currentYear query ≠ []
       ∧ List.Sorted (· < ·) (QueryEngine.extract_years currentYear query))
      ∧ (QueryEngine.yearScan none query.data = [] →
         QueryEngine.findLastNMatch (strToLower query).data = none →
         QueryEngine.hasDecadeRef (strToLower query) = false →
         QueryEngine.extract_years currentYear query =
           [currentYear - 5, currentYear - 4, currentYear - 3, currentYear - 2,
            currentYear - 1]) := by
  intro cy query
  constructor
  · constructor
    · unfold QueryEngine.extract_years
      dsimp only
      apply dedup_sort_ne_nil
      apply ite_empty_ne_nil
      rw [pyRange_five]
      exact List.cons_ne_nil _ _
    · unfold QueryEngine.extract_years
      dsimp only
      exact sorted_dedup_sort _
  · intro hscan hlast hdec
    unfold QueryEngine.extract_years
    simp only [hscan, hlast, hdec, Bool.false_eq_true, if_false, List.isEmpty_nil, if_true]
    rw [List.dedup_eq_self.mpr (pyRange_nodup (cy - 5) cy),
      List.Sorted.insertionSort_eq (pyRange_sorted (cy - 5) cy), pyRange_five]

/-- C10 witness: a query with no year information defaults to the 5 years
before the current year. -/
theorem extract_years_spec_witness :
    QueryEngine.extract_years 2030 "hi" = [2025, 2026, 2027, 2028, 2029] :=
  (extract_years_spec 2030 "hi").2 rfl rfl rfl
